import Mathlib

/-!
Shallow embedding of `src/firm_GDP.py`, an ETL script that fetches an archived
Wikipedia page, extracts the third `tbody` table of GDP-by-country rows,
converts the GDP figures from millions to billions, and loads the result into a
CSV file and a sqlite table, then runs one filter query.

HTML documents (the `BeautifulSoup` parse tree) are modelled by `Node`; machine
floats are modelled by exact rationals, with `np.round(x, 2)` modelled as the
scale/rint/unscale algorithm numpy documents, using round-half-to-even as the
contract in section 4.3 of the specification directs; Python exceptions are
modelled by `Except PyError`.
-/

mutual

/-- A node of the parsed HTML document: a bs4 `NavigableString` (`text`) or a
bs4 `Tag` with a name and a list of child nodes (`tag`). -/
inductive Node where
  | text : String → Node
  | tag : String → NodeList → Node
deriving DecidableEq

/-- A list of HTML nodes (the children of a tag). -/
inductive NodeList where
  | nil : NodeList
  | cons : Node → NodeList → NodeList
deriving DecidableEq

end

/-- Converts a Lean list of nodes into a `NodeList` (for writing documents). -/
def nodes : List Node → NodeList
  | [] => .nil
  | c :: cs => .cons c (nodes cs)

/-- The Lean list of a `NodeList`. -/
def NodeList.toList : NodeList → List Node
  | .nil => []
  | .cons c cs => c :: cs.toList

/-- bs4 `tag.contents`: the direct children of a tag (a `NavigableString` has
none). -/
def Node.contents : Node → List Node
  | .text _ => []
  | .tag _ cs => cs.toList

mutual

/-- Descendant tags named `nm` of a node, the node itself included when it
matches, in document order. -/
def Node.findAllFrom (nm : String) : Node → List Node
  | .text _ => []
  | .tag n cs => (if n = nm then [Node.tag n cs] else []) ++ NodeList.findAllFrom nm cs

/-- Descendant tags named `nm` of every node of the list, in document order. -/
def NodeList.findAllFrom (nm : String) : NodeList → List Node
  | .nil => []
  | .cons c cs => Node.findAllFrom nm c ++ NodeList.findAllFrom nm cs

end

/-- bs4 `tag.find_all(name)`: every descendant tag of the given name, in
document order (the tag itself is not a candidate). -/
def Node.find_all (nm : String) : Node → List Node
  | .text _ => []
  | .tag _ cs => NodeList.findAllFrom nm cs

/-- bs4 `tag.find(name)` (and the `tag.a` attribute shorthand): the first
descendant tag of the given name, if any. -/
def Node.findTag (nm : String) (x : Node) : Option Node :=
  (x.find_all nm).head?

/-- bs4 `Tag.__contains__`: Python `s in tag` tests membership of `s` in
`tag.contents`.  A `NavigableString` child equals the Python string `s` exactly
when the underlying strings are equal; a `Tag` child never equals a string.
This is the semantics of line 32's `'—' not in col[2]`. -/
def Node.containsStr (s : String) : Node → Bool
  | .text _ => false
  | .tag _ cs => cs.toList.any (fun c => match c with | .text t => t == s | .tag _ _ => false)

mutual

/-- bs4 `tag.get_text()`: the concatenated text of every descendant, in
document order (used only on the specification side, to state what "the text of
a cell" means). -/
def Node.getText : Node → String
  | .text s => s
  | .tag _ cs => NodeList.getTextFrom cs

/-- The concatenated text of a list of nodes. -/
def NodeList.getTextFrom : NodeList → String
  | .nil => ""
  | .cons c cs => Node.getText c ++ NodeList.getTextFrom cs

end

/-- The failures the script can raise.  `fetchError c` models line 18's
`Exception(f"Failed to load page: {c}")` (the contract's FetchError, carrying
the status code); `indexError` models Python `IndexError` from out-of-range
list indexing — for the `tables[2]` selection of line 28 this is the contract's
StructureError; `valueError` models the `ValueError` of `float()` on a
non-numeric string (the contract's ParseError); `keyError` models a missing
DataFrame column; `attributeError` and `typeError` model the failure of
`x.split(',')` when `x` is a float resp. a bs4 `Tag`. -/
inductive PyError where
  | fetchError : ℕ → PyError
  | indexError : PyError
  | valueError : PyError
  | keyError : PyError
  | attributeError : PyError
  | typeError : PyError
deriving DecidableEq

/-- An HTTP response as `requests.get` returns it: a status code and the body
text. -/
structure Response where
  status_code : ℕ
  text : String
deriving DecidableEq

/-- Lines 16–19 of `extract`: the one `requests.get(url)` call produces a
`Response`; a status code other than 200 raises (`FetchError`), otherwise the
body text is what gets parsed.  The single GET with no retry is modelled by the
function consuming exactly one `Response`. -/
def fetchCheck (response : Response) : Except PyError String :=
  if response.status_code ≠ 200 then .error (.fetchError response.status_code)
  else .ok response.text

/-- One extracted row, lines 33–36: `Country` is `col[0].a.contents[0]` and
`GDP_USD_millions` is `col[2].contents[0]`; both are HTML nodes (pandas stores
whatever object the expression yields). -/
structure RawRecord where
  country : Node
  gdp : Node
deriving DecidableEq

/-- The body of the row loop, lines 30–38, for one `row`:
`col = row.find_all('td')`; an empty `col` is skipped; then
`col[0].find('a') is not None` is evaluated first (so a linkless short row is
skipped without touching `col[2]`); then `col[2]` is indexed — `IndexError`
when the row has fewer than three cells — and `'—' not in col[2]` is checked;
a surviving row yields `col[0].a.contents[0]` and `col[2].contents[0]`, each an
`IndexError` when the tag has no contents (Country is built first). -/
def processRow (row : Node) : Except PyError (Option RawRecord) :=
  match row.find_all "td" with
  | [] => .ok none
  | c0 :: rest =>
    match c0.findTag "a" with
    | none => .ok none
    | some a =>
      match rest with
      | _ :: c2 :: _ =>
        if c2.containsStr "—" then .ok none
        else
          match a.contents[0]?, c2.contents[0]? with
          | some cn, some gn => .ok (some ⟨cn, gn⟩)
          | none, _ => .error .indexError
          | some _, none => .error .indexError
      | _ => .error .indexError

/-- The row loop of lines 29–38: rows are processed in order, each surviving
row appending one record (`pd.concat`); the first raised exception aborts the
whole loop, so an error discards every record. -/
def extractRows : List Node → Except PyError (List RawRecord)
  | [] => .ok []
  | r :: rs =>
    match processRow r with
    | .error e => .error e
    | .ok none => extractRows rs
    | .ok (some rec) => (extractRows rs).map (rec :: ·)

/-- Lines 20–39 of `extract`, after the fetch: the parsed document's `tbody`
tags are collected (`data.find_all('tbody')`), the element at index 2 is
selected — an `IndexError` (the contract's StructureError) when fewer than
three exist — and the row loop runs over `tables[2].find_all('tr')`. -/
def extract (doc : Node) : Except PyError (List RawRecord) :=
  match (doc.find_all "tbody")[2]? with
  | none => .error .indexError
  | some tbl => extractRows (tbl.find_all "tr")

/-- The numeric value of a list of decimal digit characters. -/
def natOfDigits (ds : List Char) : ℕ :=
  ds.foldl (fun a c => 10 * a + (c.toNat - 48)) 0

/-- A nonempty all-digit character list. -/
def allDigits (ds : List Char) : Bool :=
  !ds.isEmpty && ds.all (·.isDigit)

/-- An unsigned decimal literal: digits with an optional fractional part
(`"12"`, `"12."`, `"12.5"`, `".5"`), valued exactly. -/
def parseUnsignedDec (cs : List Char) : Option ℚ :=
  let ip := cs.takeWhile (· != '.')
  match cs.dropWhile (· != '.') with
  | [] => if allDigits cs then some ((natOfDigits cs : ℤ) : ℚ) else none
  | _ :: fp =>
    if ip.all (·.isDigit) && fp.all (·.isDigit) && !(ip.isEmpty && fp.isEmpty) then
      some ((natOfDigits ip : ℚ) + (natOfDigits fp : ℚ) / (10 : ℚ) ^ fp.length)
    else none

/-- An unsigned decimal literal with an optional decimal exponent
(`"1.5e3"`, `"2E-2"`). -/
def pyFloatCore (cs : List Char) : Option ℚ :=
  let mant := cs.takeWhile (fun c => c != 'e' && c != 'E')
  match cs.dropWhile (fun c => c != 'e' && c != 'E') with
  | [] => parseUnsignedDec cs
  | _ :: ecs =>
    (parseUnsignedDec mant).bind fun m =>
      match ecs with
      | '+' :: r => if allDigits r then some (m * (10 : ℚ) ^ (natOfDigits r : ℤ)) else none
      | '-' :: r => if allDigits r then some (m * (10 : ℚ) ^ (-(natOfDigits r : ℤ))) else none
      | r => if allDigits r then some (m * (10 : ℚ) ^ (natOfDigits r : ℤ)) else none

/-- The characters of a string with leading and trailing whitespace removed. -/
def trimChars (cs : List Char) : List Char :=
  ((cs.dropWhile (·.isWhitespace)).reverse.dropWhile (·.isWhitespace)).reverse

/-- Python `float(s)` on a string, with the exact rational value: surrounding
whitespace is ignored, then an optional sign and a decimal literal with an
optional fractional part and optional exponent.  `none` models the `ValueError`
Python raises on anything else.  (The special spellings `inf`/`nan`, digit
grouping underscores, and hexadecimal floats are outside the model's scope —
the pipeline never meets them.) -/
def pyFloat (s : String) : Option ℚ :=
  match trimChars s.data with
  | '+' :: r => pyFloatCore r
  | '-' :: r => (pyFloatCore r).map (fun q => -q)
  | r => pyFloatCore r

/-- Line 44's `"".join(x.split(','))`: splitting on every comma and
concatenating the pieces removes exactly the commas. -/
def stripCommas (s : String) : String :=
  String.mk (s.data.filter (· != ','))

/-- numpy `rint`: round to the nearest integer, ties to even. -/
def np_rint (q : ℚ) : ℤ :=
  let n := Int.floor q
  let r := q - n
  if r < 1/2 then n
  else if 1/2 < r then n + 1
  else if n % 2 = 0 then n else n + 1

/-- Line 45's `np.round(x, 2)`: numpy's documented scale–rint–unscale
algorithm (multiply by 10², round to nearest with ties to even, divide by
10²), taken over exact rationals — the round-half-to-even reading that
section 4.3 of the contract prescribes for the reimplementation. -/
def np_round2 (q : ℚ) : ℚ :=
  (np_rint (q * 100) : ℚ) / 100

/-- A value a DataFrame column cell can hold in this script: a Python string
(`str`, a bs4 `NavigableString`), a float (`num`, modelled exactly), or any
other HTML node object (`node`). -/
inductive PyVal where
  | str : String → PyVal
  | num : ℚ → PyVal
  | node : Node → PyVal
deriving DecidableEq

/-- The DataFrame the pipeline passes between stages: the `Country` column
(whatever objects line 34 extracted), the name of the second column, and the
second column's values. -/
structure PDataFrame where
  country : List Node
  gdpName : String
  gdp : List PyVal
deriving DecidableEq

/-- `pd.concat` over the per-row dictionaries of lines 33–38: the DataFrame
`extract` returns, with columns `Country` and `GDP_USD_millions`; a
`NavigableString` cell value is a Python `str`, any other node is stored
as-is. -/
def dfOfRecords (raws : List RawRecord) : PDataFrame where
  country := raws.map (·.country)
  gdpName := "GDP_USD_millions"
  gdp := raws.map (fun r => match r.gdp with | .text s => .str s | n => .node n)

/-- Line 44's `float("".join(x.split(',')))` on one cell value `x`: a string is
comma-stripped and parsed (`ValueError` when non-numeric); `x.split` itself
fails on a float (`AttributeError`) and on a `Tag` (whose `split` attribute
lookup yields `None`, so the call raises `TypeError`). -/
def cleanParse : PyVal → Except PyError ℚ
  | .str x =>
    match pyFloat (stripCommas x) with
    | some q => .ok q
    | none => .error .valueError
  | .num _ => .error .attributeError
  | .node _ => .error .typeError

/-- Line 44's list comprehension over the column values, left to right; the
first raised exception aborts the whole comprehension. -/
def parseColumn : List PyVal → Except PyError (List ℚ)
  | [] => .ok []
  | v :: vs =>
    match cleanParse v with
    | .error e => .error e
    | .ok q => (parseColumn vs).map (q :: ·)

/-- Lines 41–49, `transform(df)`: read the `GDP_USD_millions` column
(`KeyError` when absent), parse every value (line 44), divide by 1000 and
round to two decimals (line 45), then assign the list back to the column of
the *caller's* frame in place (lines 46–47) and rename the column on a copy
(line 48, `rename` without `inplace`).  The result pairs the final state of
the argument frame (first component — the in-place mutation the caller
observes) with the returned frame (second component). -/
def transform (df : PDataFrame) : Except PyError (PDataFrame × PDataFrame) :=
  if df.gdpName = "GDP_USD_millions" then
    match parseColumn df.gdp with
    | .error e => .error e
    | .ok parsed =>
      let rounded := parsed.map (fun x => np_round2 (x / 1000))
      let dfm : PDataFrame := { df with gdp := rounded.map PyVal.num }
      .ok (dfm, { dfm with gdpName := "GDP_USD_billions" })
  else .error .keyError

/-- Line 96's query text, with `table_name` interpolated. -/
def query_statement : String :=
  "SELECT * FROM Countries_by_GDP WHERE GDP_USD_billions >= 100"

/-- Modelled from the spec: the sqlite engine evaluating the one read query the
pipeline issues — `SELECT * FROM Countries_by_GDP WHERE GDP_USD_billions >=
100` — against the stored table of (Country, GDP_USD_billions) rows: the rows
whose GDP is at least 100, in stored order.  (sqlite itself is not part of the
repository's sources; only this fixed statement is modelled, any other
statement yields no rows.) -/
def pd_read_sql (stmt : String) (conn : List (String × ℚ)) : List (String × ℚ) :=
  if stmt = query_statement then conn.filter (fun r => 100 ≤ r.2) else []

/-- Lines 59–61, `run_query`: the query result is computed by `pd.read_sql`
and bound to the local `query_output`; the function body ends there — nothing
is printed (despite the docstring) and the Python function returns `None`,
modelled as `none`. -/
def run_query (query_statement : String) (sql_connection : List (String × ℚ)) :
    Option (List (String × ℚ)) :=
  let _query_output := pd_read_sql query_statement sql_connection
  none

/-- `pat` is a prefix of the character list. -/
def startsWithL : List Char → List Char → Bool
  | [], _ => true
  | _ :: _, [] => false
  | p :: ps, c :: cs => p == c && startsWithL ps cs

/-- `pat` occurs somewhere in the character list. -/
def containsSubL (pat : List Char) : List Char → Bool
  | [] => pat.isEmpty
  | c :: cs => startsWithL pat (c :: cs) || containsSubL pat cs

/-- `pat` occurs in `s` as a substring — the reading of the missing-marker
check that claim C3 asserts. -/
def containsSub (s pat : String) : Bool :=
  containsSubL pat.data s.data

/-- Specification side, claim C2: a row qualifies exactly when it has at least
one data cell, its first cell contains a hyperlink, and its third cell does not
carry the missing-data marker. -/
def rowQualifies (row : Node) : Bool :=
  match (row.find_all "td")[0]?, (row.find_all "td")[2]? with
  | some c0, some c2 => (c0.findTag "a").isSome && !(c2.containsStr "—")
  | _, _ => false

/-- Specification side, claim C2: the record a qualifying row yields — Country
the hyperlink text of the first cell, GDPRaw the literal text of the third
cell — and `none` for an excluded row. -/
def specRowRecord (row : Node) : Option RawRecord :=
  match (row.find_all "td")[0]?, (row.find_all "td")[2]? with
  | some c0, some c2 =>
    match c0.findTag "a" with
    | some a =>
      if c2.containsStr "—" then none
      else some ⟨.text a.getText, .text c2.getText⟩
    | none => none
  | _, _ => none

/-- A list that is one single text node. -/
def isSingleText : List Node → Bool
  | [.text _] => true
  | _ => false

/-- A well-formed table row — the contract's "valid input rows": whenever the
row has data cells and its first cell contains a hyperlink, the row has at
least three cells, the hyperlink's contents are exactly its link text, and the
third cell's contents are exactly its literal text. -/
def wellFormedRow (row : Node) : Bool :=
  match row.find_all "td" with
  | [] => true
  | c0 :: rest =>
    match c0.findTag "a" with
    | none => true
    | some a =>
      match rest with
      | _ :: c2 :: _ => isSingleText a.contents && isSingleText c2.contents
      | _ => false

/-- Specification side, claim C1: GDPBillions =
round(parseNumber(strip_commas(GDPRaw)) / 1000, 2). -/
def spec_GDPBillions (raw : String) : Option ℚ :=
  (pyFloat (stripCommas raw)).map (fun x => np_round2 (x / 1000))

/-- The parsed value of a GDP string (defaulting to 0 when unparseable; only
ever used under a parse-success hypothesis). -/
def pyFloatD (s : String) : ℚ :=
  (pyFloat (stripCommas s)).getD 0

/-- The scenario row of section 8 of the contract:
`<tr><td><a>Xland</a></td><td>...</td><td>12,345</td></tr>`. -/
def xlandRow : Node :=
  .tag "tr" (nodes [
    .tag "td" (nodes [.tag "a" (nodes [.text "Xland"])]),
    .tag "td" (nodes [.text "..."]),
    .tag "td" (nodes [.text "12,345"])])

/-- A document with three table bodies whose third one holds the Xland row. -/
def xlandDoc : Node :=
  .tag "html" (nodes [
    .tag "table" (nodes [.tag "tbody" .nil]),
    .tag "table" (nodes [.tag "tbody" .nil]),
    .tag "table" (nodes [.tag "tbody" (nodes [xlandRow])])])

/-- Decidable equality of `Except` results, for evaluating the model at
concrete inputs. -/
instance {ε α : Type} [DecidableEq ε] [DecidableEq α] : DecidableEq (Except ε α)
  | .ok a, .ok b =>
    if h : a = b then .isTrue (by rw [h]) else .isFalse (by intro k; cases k; exact h rfl)
  | .error a, .error b =>
    if h : a = b then .isTrue (by rw [h]) else .isFalse (by intro k; cases k; exact h rfl)
  | .ok _, .error _ => .isFalse (by intro k; cases k)
  | .error _, .ok _ => .isFalse (by intro k; cases k)

/-- The driver script, lines 79–97, up to the transformed frame that is then
written to the CSV file and the database: one fetch, extract on the parsed
body (`parseHtml` standing for `BeautifulSoup(page, 'html.parser')`),
transform on the frame extraction built.  No stage catches anything, so the
first exception is the run's outcome (section 7 of the contract). -/
def runETL (response : Response) (parseHtml : String → Node) :
    Except PyError PDataFrame :=
  match fetchCheck response with
  | .error e => .error e
  | .ok page =>
    match extract (parseHtml page) with
    | .error e => .error e
    | .ok raws =>
      match transform (dfOfRecords raws) with
      | .error e => .error e
      | .ok p => .ok p.2

/-- The one-record frame of the Xland scenario. -/
def xlandDf : PDataFrame := dfOfRecords [⟨.text "Xland", .text "12,345"⟩]

/-- A row whose third cell's text contains the em dash strictly inside a
longer string. -/
def substrRow : Node :=
  .tag "tr" (nodes [
    .tag "td" (nodes [.tag "a" (nodes [.text "Aland"])]),
    .tag "td" (nodes [.text "x"]),
    .tag "td" (nodes [.text "1—2"])])

/-- A row whose third cell is the bare missing-data marker. -/
def markerRow : Node :=
  .tag "tr" (nodes [
    .tag "td" (nodes [.tag "a" (nodes [.text "Bland"])]),
    .tag "td" (nodes [.text "x"]),
    .tag "td" (nodes [.text "—"])])

/-- A document with only two table-body elements. -/
def twoTbodyDoc : Node :=
  .tag "html" (nodes [
    .tag "table" (nodes [.tag "tbody" .nil]),
    .tag "tbody" .nil])

/-- A row with a hyperlinked first cell but only one data cell. -/
def shortRow : Node :=
  .tag "tr" (nodes [.tag "td" (nodes [.tag "a" (nodes [.text "Cland"])])])

/-- A document with three table bodies whose third holds one country row with
the non-numeric GDP text "abc". -/
def badGdpDoc : Node :=
  .tag "html" (nodes [
    .tag "table" (nodes [.tag "tbody" .nil]),
    .tag "table" (nodes [.tag "tbody" .nil]),
    .tag "table" (nodes [.tag "tbody" (nodes [
      .tag "tr" (nodes [
        .tag "td" (nodes [.tag "a" (nodes [.text "Dland"])]),
        .tag "td" (nodes [.text "x"]),
        .tag "td" (nodes [.text "abc"])])])])])

/-- Membership reading of the marker check: `s in tag` holds exactly when some
direct child is the text node `s`. -/
theorem containsStr_iff_mem (s : String) (x : Node) :
    x.containsStr s = true ↔ Node.text s ∈ x.contents := by
  cases x with
  | text t => simp [Node.containsStr, Node.contents]
  | tag n cs =>
    simp only [Node.containsStr, Node.contents, List.any_eq_true]
    constructor
    · rintro ⟨c, hc, h⟩
      cases c with
      | text t => simp only [beq_iff_eq] at h; subst h; exact hc
      | tag _ _ => simp at h
    · intro h
      exact ⟨Node.text s, h, by simp⟩

/-- A `NodeList` whose list is a singleton is that singleton. -/
theorem NodeList.toList_eq_singleton (cs : NodeList) (x : Node)
    (h : cs.toList = [x]) : cs = .cons x .nil := by
  cases cs with
  | nil => simp [NodeList.toList] at h
  | cons c cs' =>
    cases cs' with
    | nil => simp [NodeList.toList] at h; rw [h]
    | cons d ds => simp [NodeList.toList] at h

/-- A tag whose contents are one text node has that text as its `get_text`. -/
theorem getText_of_contents_single (x : Node) (s : String)
    (h : x.contents = [Node.text s]) : x.getText = s := by
  cases x with
  | text t => simp [Node.contents] at h
  | tag n cs =>
    simp only [Node.contents] at h
    rw [NodeList.toList_eq_singleton cs _ h]
    show Node.getText (.text s) ++ NodeList.getTextFrom .nil = s
    simp [Node.getText, NodeList.getTextFrom]

/-- `isSingleText` unpacked. -/
theorem isSingleText_iff (l : List Node) :
    isSingleText l = true ↔ ∃ s, l = [Node.text s] := by
  constructor
  · intro h
    match l, h with
    | [Node.text s], _ => exact ⟨s, rfl⟩
  · rintro ⟨s, rfl⟩
    rfl

/-- Counting filterMap output: kept plus dropped is the total. -/
theorem length_filterMap_add_none {α β : Type} (l : List α) (f : α → Option β) :
    (l.filterMap f).length + (l.filter (fun a => (f a).isNone)).length = l.length := by
  induction l with
  | nil => rfl
  | cons a l ih =>
    cases h : f a <;> simp [List.filterMap_cons, List.filter_cons, h] <;> omega

/-- The specification-side record exists exactly for qualifying rows. -/
theorem specRowRecord_isSome_eq (row : Node) :
    (specRowRecord row).isSome = rowQualifies row := by
  unfold specRowRecord rowQualifies
  cases h0 : (row.find_all "td")[0]? with
  | none => rfl
  | some c0 =>
    cases h2 : (row.find_all "td")[2]? with
    | none => rfl
    | some c2 =>
      cases ha : c0.findTag "a" with
      | none => simp [ha]
      | some a =>
        cases hm : c2.containsStr "—" <;> simp [ha, hm]

/-- On a well-formed row the loop body computes exactly the specification-side
emission (no exception, one record for a qualifying row, none otherwise). -/
theorem processRow_eq_spec (row : Node) (hwf : wellFormedRow row = true) :
    processRow row = .ok (specRowRecord row) := by
  cases hcol : row.find_all "td" with
  | nil => simp [processRow, specRowRecord, hcol]
  | cons c0 rest =>
    cases ha : c0.findTag "a" with
    | none => cases h2 : rest[1]? <;> simp [processRow, specRowRecord, hcol, ha, h2]
    | some a =>
      simp only [wellFormedRow, hcol, ha] at hwf
      rcases rest with _ | ⟨c1, rest1⟩
      · simp at hwf
      rcases rest1 with _ | ⟨c2, rest2⟩
      · simp at hwf
      simp only [Bool.and_eq_true] at hwf
      obtain ⟨s, hs⟩ := (isSingleText_iff _).mp hwf.1
      obtain ⟨g, hg⟩ := (isSingleText_iff _).mp hwf.2
      have hga := getText_of_contents_single a s hs
      have hgc := getText_of_contents_single c2 g hg
      cases hm : c2.containsStr "—" with
      | true => simp [processRow, specRowRecord, hcol, ha, hm]
      | false => simp [processRow, specRowRecord, hcol, ha, hm, hs, hg, hga, hgc]

/-- When every row's loop body computes the specification-side emission, the
row loop returns exactly the filterMap of the emissions, in row order. -/
theorem extractRows_eq_filterMap (rows : List Node)
    (h : ∀ r ∈ rows, processRow r = .ok (specRowRecord r)) :
    extractRows rows = .ok (rows.filterMap specRowRecord) := by
  induction rows with
  | nil => rfl
  | cons r rs ih =>
    have hr := h r (List.mem_cons_self r rs)
    have ih' := ih fun x hx => h x (List.mem_cons_of_mem r hx)
    cases hs : specRowRecord r with
    | none => simp [extractRows, hr, hs, ih', List.filterMap_cons]
    | some rec => simp [extractRows, hr, hs, ih', List.filterMap_cons, Except.map]

/-- A loop that returned a list raised no exception on any of its rows. -/
theorem extractRows_ok_of_mem (rows : List Node) (L : List RawRecord)
    (h : extractRows rows = .ok L) (r : Node) (hr : r ∈ rows) :
    ∃ v, processRow r = .ok v := by
  induction rows generalizing L with
  | nil => simp at hr
  | cons x xs ih =>
    rcases List.mem_cons.mp hr with rfl | hmem
    · cases hp : processRow r with
      | error e =>
        simp only [extractRows, hp] at h
        exact Except.noConfusion h
      | ok v => exact ⟨v, rfl⟩
    · cases hp : processRow x with
      | error e =>
        simp only [extractRows, hp] at h
        exact Except.noConfusion h
      | ok v =>
        cases v with
        | none =>
          simp only [extractRows, hp] at h
          exact ih L h hmem
        | some rec =>
          simp only [extractRows, hp] at h
          cases he : extractRows xs with
          | error e => rw [he] at h; simp [Except.map] at h
          | ok L' => exact ih L' he hmem

/-- When every string of the column parses, the parse comprehension of line 44
returns the parsed list, aligned with the input. -/
theorem parseColumn_ok (gs : List String)
    (h : ∀ s ∈ gs, (pyFloat (stripCommas s)).isSome = true) :
    parseColumn (gs.map PyVal.str) = .ok (gs.map pyFloatD) := by
  induction gs with
  | nil => rfl
  | cons s gs ih =>
    have hs := h s (List.mem_cons_self s gs)
    obtain ⟨q, hq⟩ := Option.isSome_iff_exists.mp hs
    have hd : pyFloatD s = q := by simp [pyFloatD, hq]
    have ih' := ih fun x hx => h x (List.mem_cons_of_mem s hx)
    simp [parseColumn, cleanParse, hq, ih', Except.map, hd]

/-- When some string of an all-string column fails to parse, the parse
comprehension of line 44 raises `ValueError` (the first failure wins, and an
all-string column can only fail with `ValueError`). -/
theorem parseColumn_err (gs : List String)
    (hbad : ∃ s ∈ gs, pyFloat (stripCommas s) = none) :
    parseColumn (gs.map PyVal.str) = .error .valueError := by
  induction gs with
  | nil => simp at hbad
  | cons s gs ih =>
    cases hp : pyFloat (stripCommas s) with
    | none => simp [parseColumn, cleanParse, hp]
    | some q =>
      obtain ⟨x, hx, hxn⟩ := hbad
      rcases List.mem_cons.mp hx with rfl | hmem
      · rw [hp] at hxn; cases hxn
      · simp [parseColumn, cleanParse, hp, ih ⟨x, hmem, hxn⟩, Except.map]

/-- C7 counterexample: a 201 response is 2xx, yet the fetch stage raises
instead of returning the body — the claim's "for every 2xx response it returns
the raw document body text" is false on the code's `status_code != 200`
check. -/
theorem fetch_2xx_cex :
    (200 ≤ 201 ∧ 201 < 300) ∧ fetchCheck ⟨201, "body"⟩ ≠ .ok "body" := by
  refine ⟨⟨by norm_num, by norm_num⟩, ?_⟩
  decide

/-- C7 amended: the fetch stage issues a single GET with no retry and fails
with a FetchError carrying the status code for every status other than
exactly 200 (not: every non-2xx status); only a status-200 response returns
the raw body text. -/
theorem fetch_status (response : Response) :
    (response.status_code = 200 → fetchCheck response = .ok response.text) ∧
    (response.status_code ≠ 200 →
      fetchCheck response = .error (.fetchError response.status_code)) := by
  constructor <;> intro h <;> simp [fetchCheck, h]

/-- C7 witness: the amended behaviour at a 200 response and at a 404
response. -/
theorem fetch_status_witness :
    fetchCheck ⟨200, "page"⟩ = .ok "page" ∧
    fetchCheck ⟨404, "nf"⟩ = .error (.fetchError 404) :=
  ⟨(fetch_status ⟨200, "page"⟩).1 rfl, (fetch_status ⟨404, "nf"⟩).2 (by decide)⟩

/-- C4: a document with fewer than three table-body elements makes extract
fail (the IndexError of `tables[2]`, the contract's StructureError), and an
error result carries no partial dataset; a document with at least three makes
extract run the row loop on exactly the tbody at zero-based index 2. -/
theorem extract_tbody_selection (doc : Node) :
    ((doc.find_all "tbody").length < 3 → extract doc = .error .indexError) ∧
    (∀ h : 2 < (doc.find_all "tbody").length,
      extract doc =
        extractRows (((doc.find_all "tbody").get ⟨2, h⟩).find_all "tr")) := by
  constructor
  · intro h
    have h2 : (doc.find_all "tbody")[2]? = none := by
      rw [List.getElem?_eq_none]
      omega
    simp [extract, h2]
  · intro h
    have h2 : (doc.find_all "tbody")[2]? =
        some ((doc.find_all "tbody").get ⟨2, h⟩) := by
      rw [List.getElem?_eq_getElem h]
      simp
    simp [extract, h2]

/-- C4 witness: the two-tbody document fails with the structure error; the
three-tbody Xland document runs the row loop on its third tbody. -/
theorem extract_tbody_selection_witness :
    extract twoTbodyDoc = .error .indexError ∧
    extract xlandDoc =
      extractRows (((xlandDoc.find_all "tbody").get ⟨2, by decide⟩).find_all "tr") :=
  ⟨(extract_tbody_selection twoTbodyDoc).1 (by decide),
   (extract_tbody_selection xlandDoc).2 (by decide)⟩

/-- C10: a row with data cells whose first cell contains a hyperlink but which
has fewer than three cells makes the loop body raise IndexError at the
`col[2]` access — the row is not skipped, and no row list containing such a
row can extract successfully. -/
theorem extract_short_row_crash (row : Node) (c0 : Node) (rest : List Node)
    (hcol : row.find_all "td" = c0 :: rest)
    (ha : (c0.findTag "a").isSome = true)
    (hshort : rest.length < 2) :
    processRow row = .error .indexError ∧
    ∀ (rows : List Node), row ∈ rows → ∀ L, extractRows rows ≠ .ok L := by
  have hp : processRow row = .error .indexError := by
    obtain ⟨a, ha'⟩ := Option.isSome_iff_exists.mp ha
    rcases rest with _ | ⟨c1, rest1⟩
    · simp [processRow, hcol, ha']
    rcases rest1 with _ | ⟨c2, rest2⟩
    · simp [processRow, hcol, ha']
    · simp at hshort
      omega
  refine ⟨hp, ?_⟩
  intro rows hmem L hok
  obtain ⟨v, hv⟩ := extractRows_ok_of_mem rows L hok row hmem
  rw [hp] at hv
  exact Except.noConfusion hv

/-- C10 witness: the one-cell hyperlinked row crashes, and the singleton list
holding it does not extract. -/
theorem extract_short_row_crash_witness :
    processRow shortRow = .error .indexError ∧ extractRows [shortRow] ≠ .ok [] :=
  ⟨(extract_short_row_crash shortRow
      (.tag "td" (nodes [.tag "a" (nodes [.text "Cland"])])) [] rfl rfl (by decide)).1,
   (extract_short_row_crash shortRow
      (.tag "td" (nodes [.tag "a" (nodes [.text "Cland"])])) [] rfl rfl (by decide)).2
     [shortRow] (by simp) []⟩

/-- C3 counterexample: the third cell of `substrRow` has text "1—2", which
contains the em-dash marker as a substring; the claim says every such row is
excluded, yet the loop emits its record — the check is not a substring test
over the cell's text. -/
theorem marker_substring_cex :
    (substrRow.find_all "td")[2]? = some (.tag "td" (nodes [.text "1—2"])) ∧
    containsSub (Node.getText (.tag "td" (nodes [.text "1—2"]))) "—" = true ∧
    extractRows [substrRow] = .ok [⟨.text "Aland", .text "1—2"⟩] :=
  ⟨rfl, rfl, rfl⟩

/-- C3 amended: the missing-data check is a membership test over the third
cell's direct children, not a substring test over its text: a row with data
cells, a hyperlinked first cell and nonempty link/third-cell contents is
skipped exactly when some direct child of the third cell is the bare text node
"—"; a marker occurring merely inside a longer text does not exclude the
row. -/
theorem processRow_marker_membership (row c0 c1 c2 a cn gn : Node)
    (rest : List Node)
    (hcol : row.find_all "td" = c0 :: c1 :: c2 :: rest)
    (ha : c0.findTag "a" = some a)
    (hcn : a.contents[0]? = some cn)
    (hgn : c2.contents[0]? = some gn) :
    processRow row = .ok none ↔ Node.text "—" ∈ c2.contents := by
  rw [← containsStr_iff_mem]
  cases hm : c2.containsStr "—" with
  | true => simp [processRow, hcol, ha, hm]
  | false => simp [processRow, hcol, ha, hm, hcn, hgn]

/-- C3 witness: the bare-marker row is skipped, the marker being a direct
child of its third cell. -/
theorem processRow_marker_membership_witness :
    processRow markerRow = .ok none ↔
      Node.text "—" ∈ (Node.tag "td" (nodes [Node.text "—"])).contents :=
  processRow_marker_membership markerRow
    (.tag "td" (nodes [.tag "a" (nodes [.text "Bland"])]))
    (.tag "td" (nodes [.text "x"]))
    (.tag "td" (nodes [.text "—"]))
    (.tag "a" (nodes [.text "Bland"])) (.text "Bland") (.text "—") []
    rfl rfl rfl rfl

/-- C2: over well-formed rows (the contract's "valid input rows": a
hyperlinked row has at least three cells, and its link and third cell hold
plain text), the row loop succeeds and emits exactly one record per
qualifying row — at least one data cell, hyperlinked first cell, no marker in
the third cell — in input row order, with Country the hyperlink text of the
first cell and GDPRaw the text of the third; the output length is the row
count minus the excluded-row count. -/
theorem extract_rows_spec (rows : List Node)
    (hwf : ∀ r ∈ rows, wellFormedRow r = true) :
    extractRows rows = .ok (rows.filterMap specRowRecord) ∧
    (∀ r ∈ rows, (specRowRecord r).isSome = rowQualifies r) ∧
    (rows.filterMap specRowRecord).length =
      rows.length - (rows.filter (fun r => (specRowRecord r).isNone)).length := by
  refine ⟨extractRows_eq_filterMap rows fun r hr => processRow_eq_spec r (hwf r hr),
    fun r _ => specRowRecord_isSome_eq r, ?_⟩
  have := length_filterMap_add_none rows specRowRecord
  omega

/-- C2 witness: a qualifying row and a marker row — extraction emits one
record, the Xland one, and the count is 2 − 1. -/
theorem extract_rows_spec_witness :
    extractRows [xlandRow, markerRow] =
      .ok ([xlandRow, markerRow].filterMap specRowRecord) ∧
    [xlandRow, markerRow].filterMap specRowRecord =
      [⟨.text "Xland", .text "12,345"⟩] ∧
    ([xlandRow, markerRow].filterMap specRowRecord).length =
      [xlandRow, markerRow].length -
        ([xlandRow, markerRow].filter (fun r => (specRowRecord r).isNone)).length :=
  ⟨(extract_rows_spec [xlandRow, markerRow] (by decide)).1, rfl,
   (extract_rows_spec [xlandRow, markerRow] (by decide)).2.2⟩

/-- C1: on a frame whose GDP column holds parseable strings under the column
name GDP_USD_millions, transform succeeds, leaves the Country column values
paired in order, renames the returned frame's column to GDP_USD_billions, and
gives every record the value round(parseNumber(strip_commas(GDPRaw)) / 1000,
2) — the returned column is the input strings mapped through exactly the
specification formula. -/
theorem transform_formula (df : PDataFrame) (gs : List String)
    (hname : df.gdpName = "GDP_USD_millions")
    (hgdp : df.gdp = gs.map PyVal.str)
    (hparse : ∀ s ∈ gs, (pyFloat (stripCommas s)).isSome = true) :
    transform df = .ok
      ({ country := df.country, gdpName := "GDP_USD_millions",
         gdp := gs.map (fun s => PyVal.num (np_round2 (pyFloatD s / 1000))) },
       { country := df.country, gdpName := "GDP_USD_billions",
         gdp := gs.map (fun s => PyVal.num (np_round2 (pyFloatD s / 1000))) }) ∧
    ∀ s ∈ gs, spec_GDPBillions s = some (np_round2 (pyFloatD s / 1000)) := by
  constructor
  · have hqs := parseColumn_ok gs hparse
    simp [transform, hname, hqs, hgdp, List.map_map, Function.comp]
  · intro s hs
    obtain ⟨q, hq⟩ := Option.isSome_iff_exists.mp (hparse s hs)
    simp [spec_GDPBillions, pyFloatD, hq]

/-- C1 witness: the one-record "12,345" column, and the formula's value at
it. -/
theorem transform_formula_witness :
    transform xlandDf = .ok
      ({ country := xlandDf.country, gdpName := "GDP_USD_millions",
         gdp := ["12,345"].map (fun s => PyVal.num (np_round2 (pyFloatD s / 1000))) },
       { country := xlandDf.country, gdpName := "GDP_USD_billions",
         gdp := ["12,345"].map (fun s => PyVal.num (np_round2 (pyFloatD s / 1000))) }) ∧
    spec_GDPBillions "12,345" = some (np_round2 (pyFloatD "12,345" / 1000)) :=
  ⟨(transform_formula xlandDf ["12,345"] rfl rfl (by decide)).1,
   (transform_formula xlandDf ["12,345"] rfl rfl (by decide)).2 "12,345" (by decide)⟩

/-- C6 counterexample: transform does not leave its input unchanged — after
the call the caller's frame no longer holds the original GDP_USD_millions
strings (they were overwritten in place with the rounded numbers). -/
theorem transform_mutation_cex :
    (transform xlandDf).map Prod.fst ≠ .ok xlandDf := by
  decide

/-- C6 amended: transform's output depends only on its input, and the Country
column and the argument frame's column name are preserved — but the function
is not side-effect-free: the caller's GDP_USD_millions column is overwritten
in place with the rounded numeric values (only the rename happens on a
copy, so the caller keeps the old name over the new values). -/
theorem transform_effects (df : PDataFrame) (gs : List String)
    (hname : df.gdpName = "GDP_USD_millions")
    (hgdp : df.gdp = gs.map PyVal.str)
    (hparse : ∀ s ∈ gs, (pyFloat (stripCommas s)).isSome = true) :
    transform df = .ok
      ({ country := df.country, gdpName := df.gdpName,
         gdp := gs.map (fun s => PyVal.num (np_round2 (pyFloatD s / 1000))) },
       { country := df.country, gdpName := "GDP_USD_billions",
         gdp := gs.map (fun s => PyVal.num (np_round2 (pyFloatD s / 1000))) }) := by
  have hqs := parseColumn_ok gs hparse
  simp [transform, hname, hqs, hgdp, List.map_map, Function.comp]

/-- C6 witness: the mutated and returned frames for the "12,345" column. -/
theorem transform_effects_witness :
    transform xlandDf = .ok
      ({ country := xlandDf.country, gdpName := xlandDf.gdpName,
         gdp := ["12,345"].map (fun s => PyVal.num (np_round2 (pyFloatD s / 1000))) },
       { country := xlandDf.country, gdpName := "GDP_USD_billions",
         gdp := ["12,345"].map (fun s => PyVal.num (np_round2 (pyFloatD s / 1000))) }) :=
  transform_effects xlandDf ["12,345"] rfl rfl (by decide)

/-- C9: when some record's GDPRaw string is non-numeric after comma removal
(its parse yields no value), transform raises the parse failure — Python's
`ValueError`, the contract's ParseError — and, nothing being caught anywhere,
the whole run errors out with it: the pipeline built from that document
produces no frame. -/
theorem transform_parse_error (response : Response) (parseHtml : String → Node)
    (raws : List RawRecord) (gs : List String)
    (hfetch : response.status_code = 200)
    (hext : extract (parseHtml response.text) = .ok raws)
    (hgdp : (dfOfRecords raws).gdp = gs.map PyVal.str)
    (hbad : ∃ s ∈ gs, pyFloat (stripCommas s) = none) :
    transform (dfOfRecords raws) = .error .valueError ∧
    runETL response parseHtml = .error .valueError := by
  have ht : transform (dfOfRecords raws) = .error .valueError := by
    have hp := parseColumn_err gs hbad
    have hn : (dfOfRecords raws).gdpName = "GDP_USD_millions" := rfl
    simp [transform, hn, hgdp, hp]
  refine ⟨ht, ?_⟩
  simp [runETL, fetchCheck, hfetch, hext, ht]

/-- C9 witness: the document whose one row carries the GDP text "abc" — the
transform and the whole run fail with the parse error. -/
theorem transform_parse_error_witness :
    transform (dfOfRecords [⟨.text "Dland", .text "abc"⟩]) = .error .valueError ∧
    runETL ⟨200, "page"⟩ (fun _ => badGdpDoc) = .error .valueError :=
  transform_parse_error ⟨200, "page"⟩ (fun _ => badGdpDoc)
    [⟨.text "Dland", .text "abc"⟩] ["abc"] rfl rfl rfl ⟨"abc", by decide, rfl⟩

/-- C5 counterexample: transforming Record{Country:"Xland", GDPRaw:"12,345"}
does not yield GDPBillions = 12.35 — the program's column differs from
[12.35]. -/
theorem xland_cex :
    (transform xlandDf).map (fun p => p.2.gdp) ≠ .ok [PyVal.num 12.35] := by
  have hv : (transform xlandDf).map (fun p => p.2.gdp) =
      .ok [PyVal.num (np_round2 ((12345 : ℚ) / 1000))] := rfl
  rw [hv]
  simp only [ne_eq, Except.ok.injEq, List.cons.injEq, PyVal.num.injEq, and_true,
    not_and]
  intro h
  norm_num [np_round2, np_rint] at h

/-- C5 amended: the scenario row extracts to Record{Country:"Xland",
GDPRaw:"12,345"} exactly as claimed, but transforming it yields
TransformedRecord{Country:"Xland", GDPBillions:12.34}: 12345/1000 = 12.345
scaled by 100 is the tie 1234.5, which np.round's half-to-even sends to 1234,
i.e. 12.34 — and the actual float64 computation agrees, since
float64(12345/1000)·100 rounds to exactly 1234.5 before rint. -/
theorem xland_scenario :
    extract xlandDoc = .ok [⟨.text "Xland", .text "12,345"⟩] ∧
    (transform xlandDf).map (fun p => p.2) =
      .ok ⟨[.text "Xland"], "GDP_USD_billions", [.num (617 / 50)]⟩ ∧
    np_round2 ((12345 : ℚ) / 1000) = 617 / 50 ∧ (617 : ℚ) / 50 = 12.34 := by
  have hq : np_round2 ((12345 : ℚ) / 1000) = 617 / 50 := by
    norm_num [np_round2, np_rint]
  refine ⟨rfl, ?_, hq, by norm_num⟩
  have hv : (transform xlandDf).map (fun p => p.2) =
      .ok ⟨[.text "Xland"], "GDP_USD_billions",
        [.num (np_round2 ((12345 : ℚ) / 1000))]⟩ := rfl
  rw [hv, hq]

/-- C8 (code bug): `run_query` executes the read query — on a connection
holding the loaded table with a qualifying row, the engine computes that
row — but the result is bound to a local and the function returns Python
`None`: the rows are never returned to the caller (nor printed, although the
function's own docstring says it prints them). -/
theorem run_query_returns_none :
    pd_read_sql query_statement [("Japan", 4231)] = [("Japan", 4231)] ∧
    run_query query_statement [("Japan", 4231)] = none := by
  constructor
  · simp only [pd_read_sql, if_pos rfl]
    norm_num
  · rfl
